import Mathlib

/-!
Verification of the controller-input bridge of `remote-pad.ts`
(pi-kiosk-tools). The definitions below are shallow embeddings of the
TypeScript source: evdev constants, the ORBIS button bitmask, the axis
normalization function, the per-record pad-state update performed by the
`data` handler of `startEvdevReader`, the slot multiplexer of the
`/api/assign` and `/api/unassign` handlers, the PS4 connection
reconnect state machine of `createPS4Connection`, and the slot cleanup
of `stopEvdevReader`.
-/

namespace RemotePad

/-! ### Evdev constants (from the constant block of remote-pad.ts) -/

def EV_SYN : Nat := 0x00
def EV_KEY : Nat := 0x01
def EV_ABS : Nat := 0x03

/-- `SYN_REPORT`: the code of the synchronization record described by the
spec (the source only tests the event type). -/
def SYN_REPORT : Nat := 0

def ABS_X : Nat := 0x00
def ABS_Y : Nat := 0x01
def ABS_Z : Nat := 0x02
def ABS_RX : Nat := 0x03
def ABS_RY : Nat := 0x04
def ABS_RZ : Nat := 0x05
def ABS_GAS : Nat := 0x09
def ABS_BRAKE : Nat := 0x0a
def ABS_HAT0X : Nat := 0x10
def ABS_HAT0Y : Nat := 0x11

def BTN_SOUTH : Nat := 0x130
def BTN_EAST : Nat := 0x131
def BTN_NORTH : Nat := 0x133
def BTN_WEST : Nat := 0x134
def BTN_TL : Nat := 0x136
def BTN_TR : Nat := 0x137
def BTN_TL2 : Nat := 0x138
def BTN_TR2 : Nat := 0x139
def BTN_SELECT : Nat := 0x13a
def BTN_START : Nat := 0x13b
def BTN_MODE : Nat := 0x13c
def BTN_THUMBL : Nat := 0x13d
def BTN_THUMBR : Nat := 0x13e
def BTN_DPAD_UP : Nat := 0x220
def BTN_DPAD_DOWN : Nat := 0x221
def BTN_DPAD_LEFT : Nat := 0x222
def BTN_DPAD_RIGHT : Nat := 0x223

/-! ### ORBIS (PS4) button bitmask -/

def ORBIS_SHARE : Nat := 0x0001
def ORBIS_L3 : Nat := 0x0002
def ORBIS_R3 : Nat := 0x0004
def ORBIS_OPTIONS : Nat := 0x0008
def ORBIS_UP : Nat := 0x0010
def ORBIS_RIGHT : Nat := 0x0020
def ORBIS_DOWN : Nat := 0x0040
def ORBIS_LEFT : Nat := 0x0080
def ORBIS_L2 : Nat := 0x0100
def ORBIS_R2 : Nat := 0x0200
def ORBIS_L1 : Nat := 0x0400
def ORBIS_R1 : Nat := 0x0800
def ORBIS_TRIANGLE : Nat := 0x1000
def ORBIS_CIRCLE : Nat := 0x2000
def ORBIS_CROSS : Nat := 0x4000
def ORBIS_SQUARE : Nat := 0x8000
def ORBIS_TOUCHPAD : Nat := 0x100000

/-- `BUTTON_MAP` of remote-pad.ts: evdev key code to ORBIS bit. -/
def BUTTON_MAP (code : Nat) : Option Nat :=
  if code = BTN_SOUTH then some ORBIS_CROSS
  else if code = BTN_EAST then some ORBIS_CIRCLE
  else if code = BTN_WEST then some ORBIS_TRIANGLE
  else if code = BTN_NORTH then some ORBIS_SQUARE
  else if code = BTN_TL then some ORBIS_L1
  else if code = BTN_TR then some ORBIS_R1
  else if code = BTN_TL2 then some ORBIS_L2
  else if code = BTN_TR2 then some ORBIS_R2
  else if code = BTN_SELECT then some ORBIS_SHARE
  else if code = BTN_START then some ORBIS_OPTIONS
  else if code = BTN_MODE then some ORBIS_TOUCHPAD
  else if code = BTN_THUMBL then some ORBIS_L3
  else if code = BTN_THUMBR then some ORBIS_R3
  else if code = BTN_DPAD_UP then some ORBIS_UP
  else if code = BTN_DPAD_DOWN then some ORBIS_DOWN
  else if code = BTN_DPAD_LEFT then some ORBIS_LEFT
  else if code = BTN_DPAD_RIGHT then some ORBIS_RIGHT
  else none

/-- JavaScript `x &= ~btn` on a 32-bit bitmask: bitwise AND with the
32-bit complement of `btn`. -/
def clearMask (btn : Nat) : Nat := 0xFFFFFFFF ^^^ btn

/-! ### Data model -/

/-- `AxisRange` of remote-pad.ts (`{min, max}` from `EVIOCGABS` or the
fallback table). -/
structure AxisRange where
  min : Int
  max : Int
deriving DecidableEq, Repr

/-- `PadState` of remote-pad.ts: button bitmask plus six analog channels. -/
structure PadState where
  buttons : Nat
  lx : Int
  ly : Int
  rx : Int
  ry : Int
  l2 : Int
  r2 : Int
deriving DecidableEq, Repr

/-- `freshPadState()` of remote-pad.ts. -/
def freshPadState : PadState :=
  { buttons := 0, lx := 128, ly := 128, rx := 128, ry := 128, l2 := 0, r2 := 0 }

/-- JavaScript `Math.round` of the exact quotient `num / den`
(round half toward positive infinity): `⌊num/den + 1/2⌋`, computed as the
floor division `⌊(2*num + den) / (2*den)⌋`.  `jsRound_eq_floor` below
checks this against the rational formula. -/
def jsRound (num den : Int) : Int := Int.fdiv (2 * num + den) (2 * den)

/-- `normalize(value, range)` of remote-pad.ts: map a raw axis value into
0–255 using the calibrated range; degenerate ranges yield 128; the result
is clamped into [0,255].  The source computes
`Math.round(((value - min) / (max - min)) * 255)`, whose exact value is
the rounded quotient `((value - min) * 255) / (max - min)`. -/
def normalize (value : Int) (r : AxisRange) : Int :=
  if r.max = r.min then 128
  else max 0 (min 255 (jsRound ((value - r.min) * 255) (r.max - r.min)))

theorem jsRound_eq_floor (num den : Int) (h : 0 < den) :
    jsRound num den = ⌊(num : ℚ) / (den : ℚ) + 1/2⌋ := by
  have h2 : (0:Int) < 2 * den := by omega
  have hq : ((2 * den : Int) : ℚ) ≠ 0 := by
    exact_mod_cast (by omega : (2 * den : Int) ≠ 0)
  have hform : (num : ℚ) / (den : ℚ) + 1/2 =
      ((2 * num + den : Int) : ℚ) / ((2 * den : Int) : ℚ) := by
    have hd : ((den : Int) : ℚ) ≠ 0 := by
      exact_mod_cast (by omega : (den : Int) ≠ 0)
    field_simp
    ring
  rw [jsRound, hform, Int.fdiv_eq_ediv _ (by omega : (0:Int) ≤ 2 * den)]
  have hnat : ((2 * den).toNat : Int) = 2 * den := Int.toNat_of_nonneg (by omega)
  refine Eq.symm ?_
  calc ⌊((2 * num + den : Int) : ℚ) / ((2 * den : Int) : ℚ)⌋
      = ⌊((2 * num + den : Int) : ℚ) / (((2 * den).toNat : ℕ) : ℚ)⌋ := by
        rw [show (((2 * den).toNat : ℕ) : ℚ) = ((2 * den : Int) : ℚ) by exact_mod_cast hnat]
    _ = (2 * num + den) / (((2 * den).toNat : ℕ) : Int) := Rat.floor_intCast_div_natCast _ _
    _ = (2 * num + den) / (2 * den) := by rw [hnat]

/-- The `r ? normalize(value, r) : value` pattern used for every abs axis
in the `data` handler: normalize when a calibrated range exists for the
code, otherwise pass the raw value through. -/
def normOrRaw (r : Option AxisRange) (value : Int) : Int :=
  match r with
  | some rr => normalize value rr
  | none => value

/-- `AxisLayout` of remote-pad.ts. -/
inductive AxisLayout where
  | standard
  | gas_brake
deriving DecidableEq, Repr

/-- `detectAxisLayout` of remote-pad.ts: gas/brake layout iff the ABS
capability bitmask lacks `ABS_RX` but has `ABS_GAS`. -/
def detectAxisLayout (absCaps : Nat) : AxisLayout :=
  if !absCaps.testBit ABS_RX && absCaps.testBit ABS_GAS then AxisLayout.gas_brake
  else AxisLayout.standard

/-- One parsed 24-byte evdev record: uint16 type, uint16 code,
int32 value (the 16 timestamp bytes are ignored by the bridge). -/
structure EvdevRecord where
  type : Nat
  code : Nat
  value : Int
deriving DecidableEq, Repr

/-- One iteration of the `data` handler loop of `startEvdevReader` for a
key or abs record (the syn branch, which performs the push, is in
`processBuffer`).  Faithful to the switch in remote-pad.ts: key events
set/clear the mapped ORBIS bit; abs events route through
`normOrRaw` to the channel selected by the code and, for `ABS_Z`/`ABS_RZ`,
by the layout; trigger channels synthesize the L2/R2 bit at the
threshold 10; hat axes set the d-pad bits by sign after clearing the
opposite pair. -/
def applyRecord (layout : AxisLayout) (ranges : List (Nat × AxisRange))
    (s : PadState) (e : EvdevRecord) : PadState :=
  if e.type = EV_KEY then
    match BUTTON_MAP e.code with
    | some btn =>
        if e.value ≠ 0 then { s with buttons := s.buttons ||| btn }
        else { s with buttons := s.buttons &&& clearMask btn }
    | none => s
  else if e.type = EV_ABS then
    if e.code = ABS_X then
      { s with lx := normOrRaw (List.lookup e.code ranges) e.value }
    else if e.code = ABS_Y then
      { s with ly := normOrRaw (List.lookup e.code ranges) e.value }
    else if e.code = ABS_RX then
      { s with rx := normOrRaw (List.lookup e.code ranges) e.value }
    else if e.code = ABS_RY then
      { s with ry := normOrRaw (List.lookup e.code ranges) e.value }
    else if e.code = ABS_Z then
      if layout = AxisLayout.gas_brake then
        { s with rx := normOrRaw (List.lookup e.code ranges) e.value }
      else
        { s with l2 := normOrRaw (List.lookup e.code ranges) e.value,
                 buttons := if 10 < normOrRaw (List.lookup e.code ranges) e.value
                            then s.buttons ||| ORBIS_L2
                            else s.buttons &&& clearMask ORBIS_L2 }
    else if e.code = ABS_RZ then
      if layout = AxisLayout.gas_brake then
        { s with ry := normOrRaw (List.lookup e.code ranges) e.value }
      else
        { s with r2 := normOrRaw (List.lookup e.code ranges) e.value,
                 buttons := if 10 < normOrRaw (List.lookup e.code ranges) e.value
                            then s.buttons ||| ORBIS_R2
                            else s.buttons &&& clearMask ORBIS_R2 }
    else if e.code = ABS_BRAKE then
      { s with l2 := normOrRaw (List.lookup e.code ranges) e.value,
               buttons := if 10 < normOrRaw (List.lookup e.code ranges) e.value
                          then s.buttons ||| ORBIS_L2
                          else s.buttons &&& clearMask ORBIS_L2 }
    else if e.code = ABS_GAS then
      { s with r2 := normOrRaw (List.lookup e.code ranges) e.value,
               buttons := if 10 < normOrRaw (List.lookup e.code ranges) e.value
                          then s.buttons ||| ORBIS_R2
                          else s.buttons &&& clearMask ORBIS_R2 }
    else if e.code = ABS_HAT0X then
      { s with buttons :=
          if e.value < 0 then
            (s.buttons &&& clearMask (ORBIS_LEFT ||| ORBIS_RIGHT)) ||| ORBIS_LEFT
          else if 0 < e.value then
            (s.buttons &&& clearMask (ORBIS_LEFT ||| ORBIS_RIGHT)) ||| ORBIS_RIGHT
          else s.buttons &&& clearMask (ORBIS_LEFT ||| ORBIS_RIGHT) }
    else if e.code = ABS_HAT0Y then
      { s with buttons :=
          if e.value < 0 then
            (s.buttons &&& clearMask (ORBIS_UP ||| ORBIS_DOWN)) ||| ORBIS_UP
          else if 0 < e.value then
            (s.buttons &&& clearMask (ORBIS_UP ||| ORBIS_DOWN)) ||| ORBIS_DOWN
          else s.buttons &&& clearMask (ORBIS_UP ||| ORBIS_DOWN) }
    else s
  else s

/-- The full `data` handler loop of `startEvdevReader` over one buffer of
parsed records: key/abs records mutate the slot state via `applyRecord`;
each `EV_SYN` record pushes `(current state, padIndex)` to the PS4
connection (`ps4Connection?.send(s, padIndex)`) and increments
`state.msgCount`.  Returns (final state, final message counter, pushes in
order). -/
def processBuffer (layout : AxisLayout) (ranges : List (Nat × AxisRange))
    (padIndex : Nat) :
    PadState → Nat → List EvdevRecord → PadState × Nat × List (PadState × Nat)
  | s, m, [] => (s, m, [])
  | s, m, e :: rest =>
      if e.type = EV_SYN then
        let out := processBuffer layout ranges padIndex s (m + 1) rest
        (out.1, out.2.1, (s, padIndex) :: out.2.2)
      else
        processBuffer layout ranges padIndex (applyRecord layout ranges s e) m rest

/-! ### Pad slot multiplexer (`/api/assign` and `/api/unassign` handlers)

For the exclusive-ownership invariant only the `device.eventPath` of each
of the four slots matters, so the multiplexer state is modelled as the
map from slot index to the optional event path of its assigned device.
The `/api/assign` handler (after finding the device) first clears every
slot already holding the same event path, stops the reader of the target
slot, then stores the device in the target slot; `/api/unassign` clears
the target slot.  Both reject indices outside `[0,3]` unchanged. -/

/-- One accepted-or-rejected multiplexer request, with the raw
(unvalidated) pad index from the request body. -/
inductive MuxOp where
  | assign (padIndex : Int) (eventPath : String)
  | unassign (padIndex : Int)

/-- Effect of one `/api/assign` / `/api/unassign` request on the four
slots' assigned event paths, faithful to the handlers in remote-pad.ts. -/
def applyMuxOp (pads : Fin 4 → Option String) : MuxOp → (Fin 4 → Option String)
  | MuxOp.assign padIndex eventPath =>
      if h : 0 ≤ padIndex ∧ padIndex ≤ 3 then
        let i : Fin 4 := ⟨padIndex.toNat, by omega⟩
        fun j =>
          if j = i then some eventPath
          else if pads j = some eventPath then none
          else pads j
      else pads
  | MuxOp.unassign padIndex =>
      if h : 0 ≤ padIndex ∧ padIndex ≤ 3 then
        let i : Fin 4 := ⟨padIndex.toNat, by omega⟩
        fun j => if j = i then none else pads j
      else pads

/-- All four slots empty, as at process start. -/
def initPads : Fin 4 → Option String := fun _ => none

/-- No two distinct slots hold the same event path. -/
def ExclusiveOwnership (pads : Fin 4 → Option String) : Prop :=
  ∀ i j : Fin 4, i ≠ j → ∀ p : String, pads i = some p → pads j ≠ some p

/-! ### PS4 connection reconnect state machine (`createPS4Connection`)

The reconnect-relevant state of one connection instance: the `open` flag,
the `intentionallyClosed` flag, whether the `reconnectTimer` variable is
non-null (`timerSet` — note `close()` clears the timeout but does not
null the variable), and whether a scheduled timeout is still going to
fire (`timerLive` — `clearTimeout` stops it).  Events are the websocket
`close` event, a synchronous `new WebSocket` failure (both of which call
`scheduleReconnect`), the websocket `open` event, the firing of the
reconnect timer, and an explicit `close()` call.  A step returns the new
state together with whether it performed a reconnect attempt
(the `connect()` call inside the timer callback). -/

structure ConnState where
  isOpen : Bool
  intentionallyClosed : Bool
  timerSet : Bool
  timerLive : Bool
deriving DecidableEq, Repr

inductive ConnEvent where
  | wsOpen
  | wsClose
  | connectFail
  | timerFire
  | close
deriving DecidableEq, Repr

/-- `scheduleReconnect` of remote-pad.ts: no-op when intentionally closed
or when the `reconnectTimer` variable is already set; otherwise schedule
the 3 s timer. -/
def scheduleReconnect (s : ConnState) : ConnState :=
  if s.intentionallyClosed || s.timerSet then s
  else { s with timerSet := true, timerLive := true }

/-- One event of the connection state machine; the `Bool` is true exactly
when the step performed an automatic reconnect attempt. -/
def connStep (s : ConnState) : ConnEvent → ConnState × Bool
  | ConnEvent.wsOpen => ({ s with isOpen := true }, false)
  | ConnEvent.wsClose =>
      let s1 : ConnState := { s with isOpen := false }
      (if s1.intentionallyClosed then s1 else scheduleReconnect s1, false)
  | ConnEvent.connectFail => (scheduleReconnect s, false)
  | ConnEvent.timerFire =>
      if s.timerLive then
        ({ s with timerSet := false, timerLive := false },
         !s.intentionallyClosed)
      else (s, false)
  | ConnEvent.close =>
      ({ s with intentionallyClosed := true, timerLive := false,
                isOpen := false }, false)

/-- State after a list of connection events. -/
def connRun (s : ConnState) : List ConnEvent → ConnState
  | [] => s
  | e :: rest => connRun (connStep s e).1 rest

/-- Per-event reconnect-attempt flags over a list of connection events. -/
def connFlags (s : ConnState) : List ConnEvent → List Bool
  | [] => []
  | e :: rest => (connStep s e).2 :: connFlags (connStep s e).1 rest

/-- Fresh connection instance: not open, not intentionally closed, no
timer. -/
def initConnState : ConnState :=
  { isOpen := false, intentionallyClosed := false, timerSet := false,
    timerLive := false }

/-! ### Slot lifecycle (`stopEvdevReader`, stream `error` handler,
`/api/unassign`) -/

/-- The per-slot state touched by `stopEvdevReader`: assigned device
event path, pad state, whether a stream handle is held, active flag, and
the calibrated range map. -/
structure PadSlotModel where
  device : Option String
  padState : PadState
  stream : Bool
  active : Bool
  axisRanges : List (Nat × AxisRange)
deriving DecidableEq, Repr

/-- `stopEvdevReader` of remote-pad.ts: destroy and clear the stream if
one is held, mark inactive, reset the pad state. -/
def stopEvdevReader (slot : PadSlotModel) : PadSlotModel :=
  let slot1 := if slot.stream then { slot with stream := false } else slot
  { slot1 with active := false, padState := freshPadState }

/-- The stream `error` handler of `startEvdevReader`:
`stream.on("error", () => stopEvdevReader(padIndex))`. -/
def onStreamError (slot : PadSlotModel) : PadSlotModel :=
  stopEvdevReader slot

/-- The `/api/unassign` handler's per-slot effect: stop the reader, then
clear the assigned device. -/
def unassignSlot (slot : PadSlotModel) : PadSlotModel :=
  { stopEvdevReader slot with device := none }

/-! ### Channel-range invariant -/

/-- All six analog channels lie in 0–255. -/
def chansOk (s : PadState) : Prop :=
  0 ≤ s.lx ∧ s.lx ≤ 255 ∧ 0 ≤ s.ly ∧ s.ly ≤ 255 ∧
  0 ≤ s.rx ∧ s.rx ≤ 255 ∧ 0 ≤ s.ry ∧ s.ry ≤ 255 ∧
  0 ≤ s.l2 ∧ s.l2 ≤ 255 ∧ 0 ≤ s.r2 ∧ s.r2 ≤ 255

instance (s : PadState) : Decidable (chansOk s) := by
  unfold chansOk; infer_instance

/-! ### Helper lemmas -/

/-- `normalize` always lands in [0,255]: the degenerate branch returns
128 and the other branch is clamped. -/
theorem normalize_mem (v : Int) (r : AxisRange) :
    0 ≤ normalize v r ∧ normalize v r ≤ 255 := by
  unfold normalize
  split
  · exact ⟨by norm_num, by norm_num⟩
  · exact ⟨le_max_left 0 _, max_le (by norm_num) (min_le_left _ _)⟩

theorem normalize_min_eq_zero (r : AxisRange) (hlt : r.min < r.max) :
    normalize r.min r = 0 := by
  have hne : r.max ≠ r.min := by omega
  have hd : (0:Int) < r.max - r.min := by omega
  unfold normalize jsRound
  rw [if_neg hne]
  have h0 : (r.min - r.min) * 255 = 0 := by ring
  rw [h0]
  have : (2 * 0 + (r.max - r.min)).fdiv (2 * (r.max - r.min)) = 0 := by
    rw [Int.fdiv_eq_ediv _ (by omega)]
    exact Int.ediv_eq_zero_of_lt (by omega) (by omega)
  rw [this]
  decide

theorem normalize_max_eq_255 (r : AxisRange) (hlt : r.min < r.max) :
    normalize r.max r = 255 := by
  have hne : r.max ≠ r.min := by omega
  have hd : (0:Int) < r.max - r.min := by omega
  unfold normalize jsRound
  rw [if_neg hne]
  have h1 : 2 * ((r.max - r.min) * 255) + (r.max - r.min) =
      (r.max - r.min) + 255 * (2 * (r.max - r.min)) := by ring
  rw [h1, Int.fdiv_eq_ediv _ (by omega),
    Int.add_mul_ediv_right _ _ (by omega : 2 * (r.max - r.min) ≠ 0),
    Int.ediv_eq_zero_of_lt (by omega) (by omega)]
  decide

/-- C2 — Normalization bounds.  For every axis range with `min < max` and
every raw value `v` with `min ≤ v ≤ max`, `normalize v range` lies in
[0,255]; `normalize min range = 0` and `normalize max range = 255`. -/
theorem normalization_bounds (r : AxisRange) (v : Int)
    (hlt : r.min < r.max) (hlo : r.min ≤ v) (hhi : v ≤ r.max) :
    (0 ≤ normalize v r ∧ normalize v r ≤ 255) ∧
    normalize r.min r = 0 ∧ normalize r.max r = 255 :=
  ⟨normalize_mem v r, normalize_min_eq_zero r hlt, normalize_max_eq_255 r hlt⟩

theorem normalization_bounds_witness :
    (0 ≤ normalize 100 ⟨0, 255⟩ ∧ normalize 100 ⟨0, 255⟩ ≤ 255) ∧
    normalize (0:Int) ⟨0, 255⟩ = 0 ∧ normalize (255:Int) ⟨0, 255⟩ = 255 :=
  normalization_bounds ⟨0, 255⟩ 100 (by decide) (by decide) (by decide)

/-- C10 — `normalize` is total and guarded against degenerate ranges: a
range with `max = min` yields 128 (no division by zero), and for every
raw value — inside or outside the range — the result is clamped into
[0,255]. -/
theorem normalize_total_guarded (v : Int) (r : AxisRange) :
    (r.max = r.min → normalize v r = 128) ∧
    0 ≤ normalize v r ∧ normalize v r ≤ 255 := by
  refine ⟨fun h => ?_, normalize_mem v r⟩
  unfold normalize
  rw [if_pos h]

theorem normalize_total_guarded_witness :
    normalize 7 ⟨5, 5⟩ = 128 ∧
    (0 ≤ normalize 99999 ⟨0, 255⟩ ∧ normalize 99999 ⟨0, 255⟩ ≤ 255) :=
  ⟨(normalize_total_guarded 7 ⟨5, 5⟩).1 rfl, (normalize_total_guarded 99999 ⟨0, 255⟩).2⟩

/-- C8 — Stream-error cleanup: the stream `error` handler performs
exactly `stopEvdevReader`, after which the stream handle is cleared, the
slot is inactive, and the pad state is at rest values (sticks 128,
triggers 0, buttons 0). -/
theorem stream_error_cleanup (slot : PadSlotModel) :
    onStreamError slot = stopEvdevReader slot ∧
    (onStreamError slot).stream = false ∧
    (onStreamError slot).active = false ∧
    (onStreamError slot).padState = freshPadState ∧
    (onStreamError slot).padState.lx = 128 ∧
    (onStreamError slot).padState.ly = 128 ∧
    (onStreamError slot).padState.rx = 128 ∧
    (onStreamError slot).padState.ry = 128 ∧
    (onStreamError slot).padState.l2 = 0 ∧
    (onStreamError slot).padState.r2 = 0 ∧
    (onStreamError slot).padState.buttons = 0 := by
  cases h : slot.stream <;>
    simp [onStreamError, stopEvdevReader, h, freshPadState]

/-- C9 — Idempotent stop: unassign twice equals unassign once (slot
empty, inactive, rest state, stream cleared), `stopEvdevReader` is
idempotent, and stopping an already-stopped slot is a no-op. -/
theorem stop_unassign_idempotent (slot : PadSlotModel) :
    unassignSlot (unassignSlot slot) = unassignSlot slot ∧
    stopEvdevReader (stopEvdevReader slot) = stopEvdevReader slot ∧
    (unassignSlot slot).stream = false ∧
    (unassignSlot slot).active = false ∧
    (unassignSlot slot).padState = freshPadState ∧
    (unassignSlot slot).device = none ∧
    (slot.stream = false → slot.active = false →
      slot.padState = freshPadState → stopEvdevReader slot = slot) := by
  obtain ⟨d, ps, st, ac, ar⟩ := slot
  cases st <;>
    simp [unassignSlot, stopEvdevReader, freshPadState] <;>
    intro h2 h3 <;> simp [h2, h3]

theorem stop_unassign_idempotent_witness :
    stopEvdevReader ⟨none, freshPadState, false, false, []⟩ =
      ⟨none, freshPadState, false, false, []⟩ :=
  (stop_unassign_idempotent ⟨none, freshPadState, false, false, []⟩).2.2.2.2.2.2
    rfl rfl rfl

/-! ### Exclusive slot ownership -/

/-- Effect of an accepted assign on slot `i0`: target gets the path,
every other slot holding the path is vacated; this preserves
exclusivity. -/
theorem assign_core (pads : Fin 4 → Option String) (i0 : Fin 4)
    (path : String) (h : ExclusiveOwnership pads) :
    ExclusiveOwnership (fun j =>
      if j = i0 then some path
      else if pads j = some path then none else pads j) := by
  intro i j hij p hi hj
  simp only at hi hj
  by_cases h1 : i = i0
  · subst h1
    rw [if_pos rfl] at hi
    have hp : path = p := Option.some.inj hi
    rw [if_neg (Ne.symm hij)] at hj
    by_cases h2 : pads j = some path
    · rw [if_pos h2] at hj; exact Option.noConfusion hj
    · rw [if_neg h2] at hj; exact h2 (hp ▸ hj)
  · rw [if_neg h1] at hi
    by_cases h3 : pads i = some path
    · rw [if_pos h3] at hi; exact Option.noConfusion hi
    · rw [if_neg h3] at hi
      by_cases h2 : j = i0
      · subst h2
        rw [if_pos rfl] at hj
        have hp : path = p := Option.some.inj hj
        exact h3 (hp ▸ hi)
      · rw [if_neg h2] at hj
        by_cases h4 : pads j = some path
        · rw [if_pos h4] at hj; exact Option.noConfusion hj
        · rw [if_neg h4] at hj
          exact h i j hij p hi hj

/-- Vacating one slot preserves exclusivity. -/
theorem unassign_core (pads : Fin 4 → Option String) (i0 : Fin 4)
    (h : ExclusiveOwnership pads) :
    ExclusiveOwnership (fun j => if j = i0 then none else pads j) := by
  intro i j hij p hi hj
  simp only at hi hj
  by_cases h1 : i = i0
  · rw [if_pos h1] at hi; exact Option.noConfusion hi
  · rw [if_neg h1] at hi
    by_cases h2 : j = i0
    · rw [if_pos h2] at hj; exact Option.noConfusion hj
    · rw [if_neg h2] at hj; exact h i j hij p hi hj

theorem applyMuxOp_preserves (pads : Fin 4 → Option String) (op : MuxOp)
    (h : ExclusiveOwnership pads) :
    ExclusiveOwnership (applyMuxOp pads op) := by
  cases op with
  | assign idx path =>
    simp only [applyMuxOp]
    split
    · exact assign_core pads _ path h
    · exact h
  | unassign idx =>
    simp only [applyMuxOp]
    split
    · exact unassign_core pads _ h
    · exact h

/-- C5 — Exclusive slot ownership: after any sequence of assign and
unassign requests starting from four empty slots, no two distinct slots
hold the same device event path (an assign vacates any prior slot
holding the same path before storing it in the target slot). -/
theorem exclusive_slot_ownership (ops : List MuxOp) :
    ExclusiveOwnership (ops.foldl applyMuxOp initPads) := by
  have hinit : ExclusiveOwnership initPads := by
    intro i j hij p hi
    simp [initPads] at hi
  have hgen : ∀ (l : List MuxOp) (pads : Fin 4 → Option String),
      ExclusiveOwnership pads → ExclusiveOwnership (l.foldl applyMuxOp pads) := by
    intro l
    induction l with
    | nil => intro pads hp; exact hp
    | cons op rest ih =>
        intro pads hp
        exact ih _ (applyMuxOp_preserves pads op hp)
  exact hgen ops initPads hinit

theorem exclusive_slot_ownership_witness :
    ([MuxOp.assign 0 "a", MuxOp.assign 2 "b"].foldl applyMuxOp initPads) 2 ≠
      some "a" :=
  exclusive_slot_ownership [MuxOp.assign 0 "a", MuxOp.assign 2 "b"] 0 2
    (by decide) "a" (by decide)

/-! ### Reconnect suppression -/

/-- The intentional-close flag is never reset by any event. -/
theorem connStep_intentional (s : ConnState) (e : ConnEvent)
    (h : s.intentionallyClosed = true) :
    ((connStep s e).1).intentionallyClosed = true := by
  cases e <;> simp [connStep, scheduleReconnect, h] <;> split <;> simp [h]

/-- No event performs a reconnect attempt once the intentional-close flag
is set: the timer callback checks the flag before calling `connect()`. -/
theorem connStep_no_attempt (s : ConnState) (e : ConnEvent)
    (h : s.intentionallyClosed = true) :
    (connStep s e).2 = false := by
  cases e <;> simp [connStep, scheduleReconnect, h] <;> split <;> simp [h]

theorem connFlags_all_false (evs : List ConnEvent) :
    ∀ s : ConnState, s.intentionallyClosed = true →
      ∀ b ∈ connFlags s evs, b = false := by
  induction evs with
  | nil => intro s _ b hb; simp [connFlags] at hb
  | cons e rest ih =>
      intro s h b hb
      simp only [connFlags, List.mem_cons] at hb
      rcases hb with hb | hb
      · rw [hb]; exact connStep_no_attempt s e h
      · exact ih _ (connStep_intentional s e h) b hb

theorem connRun_append (l1 l2 : List ConnEvent) :
    ∀ s : ConnState, connRun s (l1 ++ l2) = connRun (connRun s l1) l2 := by
  induction l1 with
  | nil => intro s; rfl
  | cons e rest ih => intro s; simp only [List.cons_append, connRun]; exact ih _

/-- C7 — Reconnect suppression: once `close()` has been invoked (setting
the intentional-close flag and cancelling any scheduled timer), no later
event — including the firing slot of a timer that had been scheduled
before the explicit disconnect — performs an automatic reconnect
attempt. -/
theorem reconnect_suppression (pre post : List ConnEvent) (b : Bool)
    (hb : b ∈ connFlags (connRun initConnState (pre ++ [ConnEvent.close])) post) :
    b = false := by
  have hint : (connRun initConnState (pre ++ [ConnEvent.close])).intentionallyClosed
      = true := by
    rw [connRun_append]
    simp [connRun, connStep]
  exact connFlags_all_false post _ hint b hb

theorem reconnect_suppression_witness :
    List.headI
      (connFlags (connRun initConnState ([ConnEvent.wsClose] ++ [ConnEvent.close]))
        [ConnEvent.timerFire]) = false :=
  reconnect_suppression [ConnEvent.wsClose] [ConnEvent.timerFire] _ (by decide)

/-! ### Sync-boundary atomicity -/

/-- C6 — Sync-boundary atomicity: one buffer consisting of key/abs
records followed by a single synchronization record (type = syn,
code = report) produces exactly one push to the PS4 connection — carrying
the state after all preceding mutations, tagged with the slot index — and
exactly one increment of the message counter. -/
theorem sync_boundary_atomicity (layout : AxisLayout)
    (ranges : List (Nat × AxisRange)) (padIndex : Nat) (s0 : PadState)
    (m0 : Nat) (pre : List EvdevRecord) (syncRec : EvdevRecord)
    (hpre : ∀ e ∈ pre, e.type = EV_KEY ∨ e.type = EV_ABS)
    (hsyn : syncRec.type = EV_SYN) (hcode : syncRec.code = SYN_REPORT) :
    processBuffer layout ranges padIndex s0 m0 (pre ++ [syncRec]) =
      (pre.foldl (applyRecord layout ranges) s0, m0 + 1,
       [(pre.foldl (applyRecord layout ranges) s0, padIndex)]) := by
  induction pre generalizing s0 with
  | nil =>
      simp [processBuffer, hsyn]
  | cons e rest ih =>
      have he : e.type = EV_KEY ∨ e.type = EV_ABS := hpre e (by simp)
      have hne : ¬ e.type = EV_SYN := by
        rcases he with h | h <;> rw [h] <;> decide
      simp only [List.cons_append, processBuffer, if_neg hne, List.foldl_cons]
      exact ih _ (fun e' he' => hpre e' (List.mem_cons_of_mem _ he'))

theorem sync_boundary_atomicity_witness :
    processBuffer AxisLayout.standard [] 0 freshPadState 0
      ([⟨EV_KEY, BTN_SOUTH, 1⟩] ++ [⟨EV_SYN, SYN_REPORT, 0⟩]) =
      ([⟨EV_KEY, BTN_SOUTH, 1⟩].foldl
          (applyRecord AxisLayout.standard []) freshPadState, 0 + 1,
       [([⟨EV_KEY, BTN_SOUTH, 1⟩].foldl
          (applyRecord AxisLayout.standard []) freshPadState, 0)]) :=
  sync_boundary_atomicity AxisLayout.standard [] 0 freshPadState 0
    [⟨EV_KEY, BTN_SOUTH, 1⟩] ⟨EV_SYN, SYN_REPORT, 0⟩ (by decide) rfl rfl

/-! ### Channel-range invariant -/

set_option maxHeartbeats 2000000 in
/-- One key/abs/syn record keeps all six channels in [0,255], provided
every abs record's code has an entry in the range map (so the raw
pass-through branch is not taken). -/
theorem applyRecord_chansOk (layout : AxisLayout)
    (ranges : List (Nat × AxisRange)) (s : PadState) (e : EvdevRecord)
    (hs : chansOk s)
    (hcov : e.type = EV_ABS → (List.lookup e.code ranges).isSome = true) :
    chansOk (applyRecord layout ranges s e) := by
  by_cases hk : e.type = EV_KEY
  · unfold applyRecord
    rw [if_pos hk]
    rcases hB : BUTTON_MAP e.code with _ | btn <;> simp only [hB]
    · exact hs
    · split <;> exact hs
  · by_cases ha : e.type = EV_ABS
    · obtain ⟨rr, hrr⟩ := Option.isSome_iff_exists.mp (hcov ha)
      have hn := normalize_mem e.value rr
      unfold applyRecord
      rw [if_neg hk, if_pos ha, hrr]
      simp only [normOrRaw]
      simp only [chansOk] at hs
      by_cases h0 : e.code = ABS_X
      · rw [if_pos h0]; simp only [chansOk]; omega
      rw [if_neg h0]
      by_cases h1 : e.code = ABS_Y
      · rw [if_pos h1]; simp only [chansOk]; omega
      rw [if_neg h1]
      by_cases h2 : e.code = ABS_RX
      · rw [if_pos h2]; simp only [chansOk]; omega
      rw [if_neg h2]
      by_cases h3 : e.code = ABS_RY
      · rw [if_pos h3]; simp only [chansOk]; omega
      rw [if_neg h3]
      by_cases h4 : e.code = ABS_Z
      · rw [if_pos h4]
        by_cases hl : layout = AxisLayout.gas_brake
        · rw [if_pos hl]; simp only [chansOk]; omega
        · rw [if_neg hl]; simp only [chansOk]; omega
      rw [if_neg h4]
      by_cases h5 : e.code = ABS_RZ
      · rw [if_pos h5]
        by_cases hl : layout = AxisLayout.gas_brake
        · rw [if_pos hl]; simp only [chansOk]; omega
        · rw [if_neg hl]; simp only [chansOk]; omega
      rw [if_neg h5]
      by_cases h6 : e.code = ABS_BRAKE
      · rw [if_pos h6]; simp only [chansOk]; omega
      rw [if_neg h6]
      by_cases h7 : e.code = ABS_GAS
      · rw [if_pos h7]; simp only [chansOk]; omega
      rw [if_neg h7]
      by_cases h8 : e.code = ABS_HAT0X
      · rw [if_pos h8]; simp only [chansOk]; omega
      rw [if_neg h8]
      by_cases h9 : e.code = ABS_HAT0Y
      · rw [if_pos h9]; simp only [chansOk]; omega
      rw [if_neg h9]
      simp only [chansOk]
      omega
    · unfold applyRecord
      rw [if_neg hk, if_neg ha]
      exact hs

theorem foldl_chansOk (layout : AxisLayout) (ranges : List (Nat × AxisRange))
    (recs : List EvdevRecord) :
    ∀ s : PadState, chansOk s →
      (∀ e ∈ recs, e.type = EV_ABS → (List.lookup e.code ranges).isSome = true) →
      chansOk (recs.foldl (applyRecord layout ranges) s) := by
  induction recs with
  | nil => intro s hs _; exact hs
  | cons e rest ih =>
      intro s hs hcov
      simp only [List.foldl_cons]
      exact ih _ (applyRecord_chansOk layout ranges s e hs (hcov e (by simp)))
        (fun e' he' => hcov e' (List.mem_cons_of_mem _ he'))

/-- C1 (amended) — Channel-range invariant: starting from the rest state
(sticks 128, triggers 0), after any sequence of evdev records in which
every absolute-axis record's code has an entry in the slot's axis-range
map, all six analog channels lie in [0,255].  (For an abs record whose
code has no entry the raw value is passed through unchanged, so the
claim's "in particular" clause fails — see the counterexample.) -/
theorem pad_channels_invariant (layout : AxisLayout)
    (ranges : List (Nat × AxisRange)) (recs : List EvdevRecord)
    (hcov : ∀ e ∈ recs, e.type = EV_ABS → (List.lookup e.code ranges).isSome = true) :
    chansOk (recs.foldl (applyRecord layout ranges) freshPadState) ∧
    freshPadState.lx = 128 ∧ freshPadState.ly = 128 ∧
    freshPadState.rx = 128 ∧ freshPadState.ry = 128 ∧
    freshPadState.l2 = 0 ∧ freshPadState.r2 = 0 :=
  ⟨foldl_chansOk layout ranges recs freshPadState (by decide) hcov,
   rfl, rfl, rfl, rfl, rfl, rfl⟩

theorem pad_channels_invariant_witness :
    chansOk ([⟨EV_ABS, ABS_X, 300⟩].foldl
      (applyRecord AxisLayout.standard [(ABS_X, ⟨0, 1023⟩)]) freshPadState) :=
  (pad_channels_invariant AxisLayout.standard [(ABS_X, ⟨0, 1023⟩)]
    [⟨EV_ABS, ABS_X, 300⟩] (by decide)).1

/-- C1 counterexample: an absolute-axis record whose code has no entry in
the axis-range map passes its raw value through — one ABS_X record with
value 300 from the rest state leaves lx = 300, outside 0–255. -/
theorem pad_channels_invariant_cex :
    ([⟨EV_ABS, ABS_X, 300⟩].foldl (applyRecord AxisLayout.standard [])
      freshPadState).lx = 300 ∧ ¬((300:Int) ≤ 255) := by decide

/-! ### Layout routing -/

/-- C3 (amended) — Layout routing: on a standard-layout slot an ABS_RZ
record updates the right-trigger channel (r2) and sets the R2 bit when
the routed value exceeds 10, clearing it at or below; on a gas_brake
slot an ABS_RZ record instead updates the right-stick Y channel (ry),
leaving r2 and the buttons unchanged; and an ABS_BRAKE record updates
the left-trigger channel (l2) — not r2, which it leaves unchanged. -/
theorem layout_routing (ranges : List (Nat × AxisRange)) (s : PadState)
    (v : Int) :
    ((applyRecord AxisLayout.standard ranges s ⟨EV_ABS, ABS_RZ, v⟩).r2 =
        normOrRaw (List.lookup ABS_RZ ranges) v) ∧
    (10 < normOrRaw (List.lookup ABS_RZ ranges) v →
      (applyRecord AxisLayout.standard ranges s ⟨EV_ABS, ABS_RZ, v⟩).buttons =
        s.buttons ||| ORBIS_R2) ∧
    (normOrRaw (List.lookup ABS_RZ ranges) v ≤ 10 →
      (applyRecord AxisLayout.standard ranges s ⟨EV_ABS, ABS_RZ, v⟩).buttons =
        s.buttons &&& clearMask ORBIS_R2) ∧
    ((applyRecord AxisLayout.gas_brake ranges s ⟨EV_ABS, ABS_RZ, v⟩).ry =
        normOrRaw (List.lookup ABS_RZ ranges) v) ∧
    ((applyRecord AxisLayout.gas_brake ranges s ⟨EV_ABS, ABS_RZ, v⟩).r2 = s.r2) ∧
    ((applyRecord AxisLayout.gas_brake ranges s ⟨EV_ABS, ABS_RZ, v⟩).buttons =
        s.buttons) ∧
    ((applyRecord AxisLayout.gas_brake ranges s ⟨EV_ABS, ABS_BRAKE, v⟩).l2 =
        normOrRaw (List.lookup ABS_BRAKE ranges) v) ∧
    ((applyRecord AxisLayout.gas_brake ranges s ⟨EV_ABS, ABS_BRAKE, v⟩).r2 =
        s.r2) := by
  have hstd : AxisLayout.standard ≠ AxisLayout.gas_brake := by decide
  refine ⟨?_, ?_, ?_, ?_, ?_, ?_, ?_, ?_⟩ <;>
    simp only [applyRecord, EV_KEY, EV_ABS, ABS_X, ABS_Y, ABS_RX, ABS_RY,
      ABS_Z, ABS_RZ, ABS_BRAKE, ABS_GAS, ABS_HAT0X, ABS_HAT0Y] <;>
    norm_num
  · rw [if_neg hstd]
  · intro h
    rw [if_neg hstd, if_pos h]
  · intro h
    rw [if_neg hstd, if_neg (by omega : ¬ (10 < normOrRaw (List.lookup 5 ranges) v))]

theorem layout_routing_witness :
    (applyRecord AxisLayout.standard [(ABS_RZ, ⟨0, 255⟩)] freshPadState
        ⟨EV_ABS, ABS_RZ, 200⟩).r2 =
      normOrRaw (List.lookup ABS_RZ [(ABS_RZ, ⟨0, 255⟩)]) 200 ∧
    (applyRecord AxisLayout.standard [(ABS_RZ, ⟨0, 255⟩)] freshPadState
        ⟨EV_ABS, ABS_RZ, 200⟩).buttons = freshPadState.buttons ||| ORBIS_R2 :=
  ⟨(layout_routing [(ABS_RZ, ⟨0, 255⟩)] freshPadState 200).1,
   (layout_routing [(ABS_RZ, ⟨0, 255⟩)] freshPadState 200).2.1 (by decide)⟩

/-- C3 counterexample: on a gas_brake slot an ABS_BRAKE record with
normalized value 200 leaves r2 at its rest value 0 and instead sets
l2 = 200 — the claim's "ABS_BRAKE updates the right-trigger channel" is
false on the code, which routes BRAKE to the left trigger. -/
theorem layout_routing_cex :
    (applyRecord AxisLayout.gas_brake [(ABS_BRAKE, ⟨0, 255⟩)] freshPadState
      ⟨EV_ABS, ABS_BRAKE, 200⟩).r2 = 0 ∧
    (applyRecord AxisLayout.gas_brake [(ABS_BRAKE, ⟨0, 255⟩)] freshPadState
      ⟨EV_ABS, ABS_BRAKE, 200⟩).l2 = 200 := by decide

/-! ### Gas/brake example scenario -/

/-- C4 (amended) — Gas/brake example: a capability bitmask with the
ABS_GAS bit set and the ABS_RX bit clear is classified gas_brake; on
such a slot an ABS_Z record with raw value 32767 under calibrated range
{0, 65535} sets the right-stick X channel to 127 (the JavaScript
rounding of 32767/65535·255 ≈ 127.498) and leaves the left-trigger
channel — and every other field — unchanged. -/
theorem gas_brake_example (caps : Nat) (ranges : List (Nat × AxisRange))
    (s : PadState) (h1 : caps.testBit ABS_GAS = true)
    (h2 : caps.testBit ABS_RX = false)
    (hz : List.lookup ABS_Z ranges = some ⟨0, 65535⟩) :
    detectAxisLayout caps = AxisLayout.gas_brake ∧
    applyRecord AxisLayout.gas_brake ranges s ⟨EV_ABS, ABS_Z, 32767⟩ =
      { s with rx := 127 } := by
  constructor
  · unfold detectAxisLayout
    rw [h1, h2]
    rfl
  · have hnorm : normalize 32767 ⟨0, 65535⟩ = 127 := by decide
    have hz2 : List.lookup 2 ranges = some ⟨0, 65535⟩ := hz
    simp only [applyRecord, EV_KEY, EV_ABS, ABS_X, ABS_Y, ABS_RX, ABS_RY,
      ABS_Z, ABS_RZ, ABS_BRAKE, ABS_GAS, ABS_HAT0X, ABS_HAT0Y]
    norm_num
    rw [hz2]
    simp only [normOrRaw, hnorm]

theorem gas_brake_example_witness :
    detectAxisLayout 512 = AxisLayout.gas_brake ∧
    applyRecord AxisLayout.gas_brake [(ABS_Z, ⟨0, 65535⟩)] freshPadState
        ⟨EV_ABS, ABS_Z, 32767⟩ = { freshPadState with rx := 127 } :=
  gas_brake_example 512 [(ABS_Z, ⟨0, 65535⟩)] freshPadState
    (by decide) (by decide) rfl

/-- C4 counterexample: `Math.round((32767/65535)*255)` is 127, not the
claimed 128 — processing the ABS_Z record sets rx to 127. -/
theorem gas_brake_example_cex :
    (applyRecord AxisLayout.gas_brake [(ABS_Z, ⟨0, 65535⟩)] freshPadState
      ⟨EV_ABS, ABS_Z, 32767⟩).rx = 127 ∧ (127 : Int) ≠ 128 := by decide

end RemotePad
